import Mathlib

/-!
# print-lidar: the acquisition state machine of `app/print-lidar/main.cpp`

A shallow embedding of `main.cpp`.  The program talks to the outside world only
through the lidar driver, the two output streams, `usleep` and the `SIGINT`
handler, so a run is modelled as the list of `Event`s it performs, in order,
together with the exit code.  The answers of the driver and the delivery of
`SIGINT` are inputs (`Env`).

Conventions.
* `SL_IS_OK(r)` is "the call succeeded": a call's answer is a `Bool`, an
  `Option` (the payload on success) or an `Except` (the failure code, or the
  payload).
* A `float` that the program prints is always a dyadic rational; it is kept as
  a numerator over a power of two, `num / 2 ^ shift`.
* `std::to_string(float)` is `%f`: six decimals, the exact binary value rounded
  to nearest, ties to even.
-/

namespace PrintLidar

/-! ## Data model -/

/-- The fields of `sl_lidar_response_measurement_node_hq_t`.  The struct is declared in
the SDK header; `angle_z_q14` is a 16-bit and `dist_mm_q2` a 32-bit unsigned field. -/
structure Node where
  angle_z_q14 : Nat
  dist_mm_q2 : Nat
  quality : Nat
  flag : Nat
deriving DecidableEq, Repr

/-- The fields of `sl_lidar_response_device_info_t` that `main` prints. -/
structure DevInfo where
  serialnum : List Nat
  firmware_version : Nat
  hardware_version : Nat
deriving DecidableEq, Repr

/-- Modelled from the spec: the constant `SL_LIDAR_STATUS_ERROR` is declared in the SDK
header, which is not among the sources; the spec's scenario gives the ERROR status the
code 2. -/
def SL_LIDAR_STATUS_ERROR : Nat := 2

/-- Everything a run of `main` does that is visible from outside, one constructor per
kind of action.  Driver calls carry the answer that the driver gave. -/
inductive Event where
  /-- Text inserted into the standard output (`printf`, `std::cout <<`). -/
  | out (s : String)
  /-- Text written to the error stream (`fprintf(stderr, ...)`). -/
  | err (s : String)
  /-- The call `print_usage(argc, argv)`. -/
  | print_usage
  /-- The call `createLidarDriver()`; `ok` is "the pointer is not null". -/
  | createLidarDriver (ok : Bool)
  /-- The call `createSerialPortChannel(opt_port, opt_baudrate)`. -/
  | createSerialPortChannel (port : String) (baudrate : Nat)
  /-- The call `drv->connect(_channel)`. -/
  | connect (ok : Bool)
  /-- The call `drv->getDeviceInfo(devinfo)`. -/
  | getDeviceInfo (ok : Bool)
  /-- The call `drv->getHealth(healthinfo)`. -/
  | getHealth (ok : Bool)
  /-- The call `signal(SIGINT, ctrlc)`. -/
  | signal
  /-- The call `drv->setMotorSpeed(...)`; `none` is the call without argument. -/
  | setMotorSpeed (speed : Option Nat)
  /-- The call `drv->startScan(0,1)`. -/
  | startScan
  /-- The call `drv->grabScanDataHq(nodes, count)`. -/
  | grabScanDataHq (ok : Bool)
  /-- The call `drv->ascendScanData(nodes, count)`. -/
  | ascendScanData
  /-- The read of the global `ctrl_c_pressed` in `if (ctrl_c_pressed)`. -/
  | readCtrlC (value : Bool)
  /-- The call `usleep(us)`. -/
  | usleep (us : Nat)
  /-- The call `drv->stop()`. -/
  | stop
  /-- The statement `delete drv`. -/
  | deleteDrv
deriving DecidableEq, Repr

/-! ## Floating point and `std::to_string` -/

/-- The spacing of the `float`s around `n`: `1` below `2 ^ 24`, and doubled with every
further bit of `n` (`fuel` bounds the number of halvings). -/
def f32Ulp : Nat → Nat → Nat
  | 0, _ => 1
  | fuel + 1, n => if n < 2 ^ 24 then 1 else 2 * f32Ulp fuel (n / 2)

/-- The `float` nearest to the natural number `n` (24-bit significand, round to nearest,
ties to even), as the conversion of an unsigned integer to `float` computes it. -/
def f32OfNat (n : Nat) : Nat :=
  let ulp := f32Ulp n n
  let q := n / ulp
  let r := n % ulp
  if 2 * r < ulp then q * ulp
  else if ulp < 2 * r then (q + 1) * ulp
  else if q % 2 = 0 then q * ulp
  else (q + 1) * ulp

/-- The value `num / 2 ^ shift` in millionths, rounded to nearest, ties to even: the
number that `%f` prints. -/
def fixed6 (num shift : Nat) : Nat :=
  let s := num * 1000000
  let d := 2 ^ shift
  let q := s / d
  let r := s % d
  if 2 * r < d then q
  else if d < 2 * r then q + 1
  else if q % 2 = 0 then q
  else q + 1

/-- The six digits after the decimal point. -/
def frac6 (m : Nat) : String :=
  String.mk [Nat.digitChar (m / 100000 % 10), Nat.digitChar (m / 10000 % 10),
    Nat.digitChar (m / 1000 % 10), Nat.digitChar (m / 100 % 10),
    Nat.digitChar (m / 10 % 10), Nat.digitChar (m % 10)]

/-- The text of `std::to_string(x)` for the non-negative `float` `x = num / 2 ^ shift`. -/
def to_string (num shift : Nat) : String :=
  Nat.repr (fixed6 num shift / 1000000) ++ "." ++ frac6 (fixed6 num shift % 1000000)

/-- The numerator over `2 ^ 14` of the `float` `(nodes[pos].angle_z_q14 * 90.f) / 16384.f`:
the field is converted to `float`, the product is rounded to `float`, and the division
by a power of two is exact. -/
def angleNum (n : Node) : Nat :=
  f32OfNat (f32OfNat n.angle_z_q14 * 90)

/-- The numerator over `2 ^ 2` of the `float` `nodes[pos].dist_mm_q2 / 4.0f`. -/
def distNum (n : Node) : Nat :=
  f32OfNat n.dist_mm_q2

/-- The angle that is printed for a node, in millionths of a degree. -/
def angleMicro (n : Node) : Nat := fixed6 (angleNum n) 14

/-! ## The acquisition cycle -/

/-- Modelled from the spec: `ILidarDriver::ascendScanData` is defined in the SDK, which is
not among the sources.  The spec says that the step "orders them by ascending angle":
the batch is sorted by its fixed-point angle field. -/
def ascendScanData (nodes : List Node) : List Node :=
  nodes.insertionSort (fun a b => a.angle_z_q14 ≤ b.angle_z_q14)

/-- The conversion `(int)count` of a `size_t`. -/
def intOfSizeT (count : Nat) : Int :=
  if count % 2 ^ 32 < 2 ^ 31 then Int.ofNat (count % 2 ^ 32)
  else Int.ofNat (count % 2 ^ 32) - 2 ^ 32

/-- The two insertions of one pass of the `for` loop of lines 190-193, each followed by
its separator. -/
def printNode (n : Node) : List Event :=
  [Event.out (to_string (angleNum n) 14), Event.out ";",
   Event.out (to_string (distNum n) 2), Event.out ";"]

/-- The `for` loop of lines 190-193: `pos` runs from `0` while `pos < (int)count`. -/
def printNodes (nodes : List Node) (count : Nat) : List Event :=
  (nodes.take (intOfSizeT count).toNat).flatMap printNode

/-- Lines 188-194: the branch taken when `grabScanDataHq` succeeded with `nodes`
(`count` is their number). -/
def emitRecord (nodes : List Node) : List Event :=
  [Event.ascendScanData, Event.out "S;"] ++
    printNodes (ascendScanData nodes) nodes.length ++
    [Event.out "E;", Event.out "\n"]

/-- Lines 185-195: one acquisition, and the record when it succeeded. -/
def cycleBody (r : Option (List Node)) : List Event :=
  match r with
  | some nodes => Event.grabScanDataHq true :: emitRecord nodes
  | none => [Event.grabScanDataHq false]

/-- The text that a list of events puts on the standard output. -/
def stdoutText : List Event → String
  | [] => ""
  | Event.out s :: tr => s ++ stdoutText tr
  | _ :: tr => stdoutText tr

/-- The text of the angle/distance pairs of a batch, each field followed by `;`. -/
def pairsText : List Node → String
  | [] => ""
  | n :: ns => to_string (angleNum n) 14 ++ ";" ++ (to_string (distNum n) 2 ++ ";") ++ pairsText ns

/-! ## Startup, health check, loop and teardown -/

/-- What the outside world answers during one run. -/
structure Env where
  /-- The command line, `argv[0]` first; `argc` is its length. -/
  argv : List String
  /-- The value of `strtoul(s, NULL, 10)`. -/
  strtoul : String → Nat
  /-- Whether `createLidarDriver()` gave a driver. -/
  createLidarDriver : Bool
  /-- Whether `drv->connect(_channel)` succeeded. -/
  connect : Bool
  /-- The device info read by `drv->getDeviceInfo`, `none` when the call failed. -/
  getDeviceInfo : Option DevInfo
  /-- The answer of `drv->getHealth`: the failure code, or `healthinfo.status`. -/
  getHealth : Except Nat Nat
  /-- The answer of the call `drv->grabScanDataHq` of cycle `i` (cycles count from 0):
  the nodes it stored, `none` when it failed. -/
  grabScanDataHq : Nat → Option (List Node)
  /-- Whether a `SIGINT` is delivered, and the handler `ctrlc` runs, right before the
  `t`-th event of the acquisition loop (events count from 0).  The handler is installed
  just before the loop and the global starts as `false`, so `t = 0` stands for every
  instant between the installation and the first acquisition. -/
  sigint : Nat → Bool

/-- The signal handler `ctrlc`: the new value of the global `ctrl_c_pressed`. -/
def ctrlc (_ctrl_c_pressed : Bool) : Bool := true

/-- The global `ctrl_c_pressed` after the `n` instants `clock`, ..., `clock + n - 1`, at
each of which the handler runs if a `SIGINT` is delivered. -/
def deliver (sigint : Nat → Bool) : Bool → Nat → Nat → Bool
  | ctrl_c_pressed, _, 0 => ctrl_c_pressed
  | ctrl_c_pressed, clock, n + 1 =>
    deliver sigint (if sigint clock then ctrlc ctrl_c_pressed else ctrl_c_pressed) (clock + 1) n

/-- The function `delay` of the non-Windows build (lines 46-52). -/
def delay (ms : Nat) : List Event :=
  List.replicate (ms / 1000) (Event.usleep (1000 * 1000)) ++
    (if ms % 1000 ≠ 0 then [Event.usleep (ms % 1000 * 1000)] else [])

/-- The `while (1)` loop of lines 181-200.  `cycle` numbers the iteration, `clock`
counts the events that the loop has performed so far, `ctrl_c_pressed` is the global on
entry of the iteration.  The result is `none` when `fuel` iterations do not reach the
`break`. -/
def acquisitionLoop (grab : Nat → Option (List Node)) (sigint : Nat → Bool) :
    Nat → Nat → Nat → Bool → Option (List Event)
  | 0, _, _, _ => none
  | fuel + 1, cycle, clock, ctrl_c_pressed =>
    let body := cycleBody (grab cycle)
    let pressed := deliver sigint ctrl_c_pressed clock (body.length + 1)
    if pressed then
      some (body ++ [Event.readCtrlC true])
    else
      (acquisitionLoop grab sigint fuel (cycle + 1) (clock + body.length + 2)
          (deliver sigint pressed (clock + body.length + 1) 1)).map
        (fun rest => body ++ Event.readCtrlC false :: Event.usleep (16 * 1000) :: rest)

/-- Upper-case hexadecimal digit. -/
def hexDigitUpper (d : Nat) : Char :=
  if d < 10 then Nat.digitChar d else Char.ofNat (55 + d)

/-- The conversion `%02X` of a byte. -/
def fmt02X (b : Nat) : String :=
  String.mk [hexDigitUpper (b / 16 % 16), hexDigitUpper (b % 16)]

/-- The conversion `%02d` of a number below 256. -/
def fmt02d (n : Nat) : String :=
  if n < 10 then "0" ++ Nat.repr n else Nat.repr n

/-- The conversion `%x`. -/
def fmtx (n : Nat) : String :=
  String.mk (Nat.toDigits 16 n)

/-- Lines 157-167: the serial number, firmware and hardware version. -/
def printDevInfo (devinfo : DevInfo) : List Event :=
  [Event.out "SLAMTEC LIDAR S/N: "] ++
    (List.range 16).map (fun pos => Event.out (fmt02X (devinfo.serialnum.getD pos 0))) ++
    [Event.out ("\nFirmware Ver: " ++ Nat.repr (devinfo.firmware_version / 256) ++ "." ++
        fmt02d (devinfo.firmware_version % 256) ++ "\nHardware Rev: " ++
        Nat.repr devinfo.hardware_version ++ "\n")]

/-- The function `checkSLAMTECLIDARHealth` (lines 67-87): its events and its result. -/
def checkSLAMTECLIDARHealth (getHealth : Except Nat Nat) : List Event × Bool :=
  match getHealth with
  | Except.ok status =>
    if status = SL_LIDAR_STATUS_ERROR then
      ([Event.getHealth true,
        Event.out ("SLAMTEC Lidar health status : " ++ Nat.repr status ++ "\n"),
        Event.err "Error, slamtec lidar internal error detected. Please reboot the device to retry.\n"],
       false)
    else
      ([Event.getHealth true,
        Event.out ("SLAMTEC Lidar health status : " ++ Nat.repr status ++ "\n")], true)
  | Except.error op_result =>
    ([Event.getHealth false,
      Event.err ("Error, cannot retrieve the lidar health code: " ++ fmtx op_result ++ "\n")],
     false)

/-- The label `on_finished` (lines 207-212): `drv` tells whether the pointer is non-null. -/
def on_finished (drv : Bool) : List Event × Int :=
  (if drv then [Event.deleteDrv] else [], 0)

/-- Lines 102-103. -/
def banner : List Event :=
  [Event.out "LIDAR data printer for SLAMTEC LIDAR.\nVersion: SL_LIDAR_SDK_VERSION\n"]

/-- The default port of the Linux build. -/
def default_port : String := "/dev/ttyUSB0"

/-- Lines 130-149: driver and channel creation, `connect`, and the device info read.
The result is the events, whether `drv` is still non-null, and `devinfo` when
`connectSuccess` is set. -/
def connectPhase (env : Env) (opt_port : String) (opt_baudrate : Nat) :
    List Event × Bool × Option DevInfo :=
  let pre := [Event.createLidarDriver true, Event.createSerialPortChannel opt_port opt_baudrate,
    Event.connect env.connect]
  if env.connect then
    match env.getDeviceInfo with
    | some devinfo => (pre ++ [Event.getDeviceInfo true], true, some devinfo)
    | none => (pre ++ [Event.getDeviceInfo false, Event.deleteDrv], false, none)
  else (pre, true, none)

/-- Lines 202-205: what follows the loop, up to the label `on_finished`. -/
def afterLoop : List Event :=
  [Event.out "\nbye.\n", Event.stop] ++ delay 200 ++ [Event.setMotorSpeed (some 0)]

/-- Lines 174-178: the handler is installed, the motor and the scan are started. -/
def startScanning : List Event :=
  [Event.signal, Event.setMotorSpeed none, Event.startScan, Event.out "starting scan...\n"]

/-- Lines 137-213: `main` from the creation of a driver on. -/
def runDriver (env : Env) (opt_port : String) (opt_baudrate : Nat) (fuel : Nat) :
    Option (List Event × Int) :=
  match connectPhase env opt_port opt_baudrate with
  | (tr, drv, none) =>
    some (tr ++ [Event.err ("Error, cannot bind to the specified serial port " ++ opt_port ++
      ".\n")] ++ (on_finished drv).1, (on_finished drv).2)
  | (tr, drv, some devinfo) =>
    let health := checkSLAMTECLIDARHealth env.getHealth
    if health.2 then
      (acquisitionLoop env.grabScanDataHq env.sigint fuel 0 0 false).map (fun loop =>
        (tr ++ printDevInfo devinfo ++ health.1 ++ startScanning ++ loop ++ afterLoop ++
          (on_finished drv).1, (on_finished drv).2))
    else
      some (tr ++ printDevInfo devinfo ++ health.1 ++ (on_finished drv).1, (on_finished drv).2)

/-- Line 122: the port named on the command line, or the default one; `rest` is the
command line after `--port`. -/
def optPort (rest : List String) : String :=
  rest.head?.getD default_port

/-- Line 123: the baud rate of the command line as an `sl_u32`, or `baudrateArray[0]`. -/
def optBaudrate (strtoul : String → Nat) (rest : List String) : Nat :=
  match rest with
  | _ :: b :: _ => strtoul b % 2 ^ 32
  | _ => 115200

/-- The function `main`: the events of the run and the exit code, `none` when the
acquisition loop does not end within `fuel` iterations. -/
def main (env : Env) (fuel : Nat) : Option (List Event × Int) :=
  match env.argv with
  | _ :: opt1 :: rest =>
    if opt1 = "--port" then
      if env.createLidarDriver then
        (runDriver env (optPort rest) (optBaudrate env.strtoul rest) fuel).map
          (fun r => (banner ++ r.1, r.2))
      else
        some (banner ++ [Event.createLidarDriver false, Event.err "insufficent memory, exit\n"], -2)
    else
      some (banner ++ [Event.print_usage], -1)
  | _ => some (banner ++ [Event.print_usage], -1)

/-- The calls on the driver object, its release included. -/
def Event.isDriverOp : Event → Bool
  | Event.connect _ => true
  | Event.getDeviceInfo _ => true
  | Event.getHealth _ => true
  | Event.setMotorSpeed _ => true
  | Event.startScan => true
  | Event.grabScanDataHq _ => true
  | Event.ascendScanData => true
  | Event.stop => true
  | Event.deleteDrv => true
  | _ => false

/-- The kinds of event that the acquisition loop performs. -/
def Event.inLoop : Event → Bool
  | Event.out _ => true
  | Event.grabScanDataHq _ => true
  | Event.ascendScanData => true
  | Event.readCtrlC _ => true
  | Event.usleep _ => true
  | _ => false

/-- The insertions into the standard output. -/
def Event.isOut : Event → Bool
  | Event.out _ => true
  | _ => false

/-- The events of the cycles `cycle`, ..., `cycle + n` of a loop that leaves in the
last of them. -/
def cyclesFrom (grab : Nat → Option (List Node)) (cycle : Nat) : Nat → List Event
  | 0 => cycleBody (grab cycle) ++ [Event.readCtrlC true]
  | n + 1 => cycleBody (grab cycle) ++
      Event.readCtrlC false :: Event.usleep (16 * 1000) :: cyclesFrom grab (cycle + 1) n

/-- A fatal device-lifecycle error: `connect` fails, the device info read fails, the
health query fails, or the health status is ERROR. -/
def Env.fatal (env : Env) : Bool :=
  !env.connect || env.getDeviceInfo.isNone ||
    match env.getHealth with
    | Except.error _ => true
    | Except.ok status => decide (status = SL_LIDAR_STATUS_ERROR)

/-- The runs that end within `fuel` iterations of the loop: those with a fatal
device-lifecycle error, and those with a `SIGINT` at an instant below `fuel`. -/
def Env.ends (env : Env) (fuel : Nat) : Bool :=
  env.fatal || (List.range fuel).any env.sigint

/-! ## Example runs -/

/-- A device info as a healthy device reports it. -/
def sampleDevInfo : DevInfo :=
  DevInfo.mk (List.replicate 16 171) 280 5

/-- A run in which `connect` fails. -/
def connectFailedEnv : Env :=
  Env.mk ["print-lidar", "--port", "/dev/ttyUSB0"] (fun _ => 115200) true false
    (some sampleDevInfo) (Except.ok 0) (fun _ => none) (fun _ => false)

/-- A run without the `--port` option. -/
def usageEnv : Env :=
  Env.mk ["print-lidar", "/dev/ttyUSB0"] (fun _ => 115200) true true
    (some sampleDevInfo) (Except.ok 0) (fun _ => none) (fun _ => false)

/-- A run in which `createLidarDriver` gives no driver. -/
def noDriverEnv : Env :=
  Env.mk ["print-lidar", "--port", "/dev/ttyUSB0"] (fun _ => 115200) false true
    (some sampleDevInfo) (Except.ok 0) (fun _ => none) (fun _ => false)

/-- A run in which the device reports the health status ERROR. -/
def healthErrorEnv : Env :=
  Env.mk ["print-lidar", "--port", "/dev/ttyUSB0"] (fun _ => 115200) true true
    (some sampleDevInfo) (Except.ok 2) (fun _ => none) (fun _ => false)

/-- A run that scans: the second acquisition fails, the others give two samples, and a
`SIGINT` arrives during the third cycle. -/
def scanEnv : Env :=
  Env.mk ["print-lidar", "--port", "/dev/ttyUSB0", "256000"] (fun _ => 256000) true true
    (some sampleDevInfo) (Except.ok 0)
    (fun i => if i = 1 then none else some [Node.mk 16384 400 47 0, Node.mk 0 800 47 1])
    (fun t => decide (t = 20))

/-! ## Lemmas on the interrupt flag -/

theorem deliver_eq_true_iff (sigint : Nat → Bool) (b : Bool) (c n : Nat) :
    deliver sigint b c n = true ↔ b = true ∨ ∃ j, j < n ∧ sigint (c + j) = true := by
  induction n generalizing b c with
  | zero => simp [deliver]
  | succ n ih =>
    rw [deliver, ih]
    constructor
    · rintro (h | ⟨j, hj, hs⟩)
      · by_cases hc : sigint c = true
        · exact Or.inr ⟨0, by omega, by simpa using hc⟩
        · exact Or.inl (by simpa [hc] using h)
      · exact Or.inr ⟨j + 1, by omega, by rw [← hs]; congr 1; omega⟩
    · rintro (h | ⟨j, hj, hs⟩)
      · exact Or.inl (by simp [h, ctrlc])
      · cases j with
        | zero =>
          have hs0 : sigint c = true := by simpa using hs
          exact Or.inl (by simp [hs0, ctrlc])
        | succ j => exact Or.inr ⟨j, by omega, by rw [← hs]; congr 1; omega⟩

theorem deliver_eq_false_iff (sigint : Nat → Bool) (b : Bool) (c n : Nat) :
    deliver sigint b c n = false ↔ b = false ∧ ∀ j, j < n → sigint (c + j) = false := by
  rw [← Bool.not_eq_true, deliver_eq_true_iff]
  simp only [not_or, not_exists, not_and, Bool.not_eq_true]

/-! ## Lemmas on the record of one cycle -/

theorem frac6_length (m : Nat) : (frac6 m).length = 6 := rfl

theorem to_string_length (num shift : Nat) : 7 ≤ (to_string num shift).length := by
  unfold to_string
  rw [String.length_append, String.length_append, frac6_length]
  have h : ".".length = 1 := rfl
  omega

/-- Every event of the `for` loop inserts a text whose length is not two. -/
theorem printNode_out (n : Node) (e : Event) (he : e ∈ printNode n) :
    ∃ s, e = Event.out s ∧ s.length ≠ 2 := by
  unfold printNode at he
  simp only [List.mem_cons, List.mem_singleton, List.not_mem_nil, or_false] at he
  rcases he with h | h | h | h
  · exact ⟨_, h, by have := to_string_length (angleNum n) 14; omega⟩
  · exact ⟨_, h, by decide⟩
  · exact ⟨_, h, by have := to_string_length (distNum n) 2; omega⟩
  · exact ⟨_, h, by decide⟩

theorem printNodes_out (nodes : List Node) (count : Nat) (e : Event)
    (he : e ∈ printNodes nodes count) : ∃ s, e = Event.out s ∧ s.length ≠ 2 := by
  unfold printNodes at he
  rw [List.mem_flatMap] at he
  obtain ⟨n, _, hn⟩ := he
  exact printNode_out n e hn

theorem count_printNodes_eq_zero (nodes : List Node) (count : Nat) (s : String)
    (hs : s.length = 2) : (printNodes nodes count).count (Event.out s) = 0 := by
  rw [List.count_eq_zero]
  intro hmem
  obtain ⟨s', h1, h2⟩ := printNodes_out nodes count _ hmem
  injection h1 with h1
  exact h2 (h1 ▸ hs)

theorem intOfSizeT_of_le (count : Nat) (h : count ≤ 8192) :
    (intOfSizeT count).toNat = count := by
  unfold intOfSizeT
  have h1 : count % 2 ^ 32 = count := Nat.mod_eq_of_lt (by omega)
  rw [h1, if_pos (by omega)]
  rfl

theorem ascendScanData_perm (nodes : List Node) : (ascendScanData nodes).Perm nodes :=
  List.perm_insertionSort _ nodes

theorem ascendScanData_length (nodes : List Node) :
    (ascendScanData nodes).length = nodes.length :=
  (ascendScanData_perm nodes).length_eq

theorem ascendScanData_sorted (nodes : List Node) :
    (ascendScanData nodes).Sorted (fun a b => a.angle_z_q14 ≤ b.angle_z_q14) := by
  unfold ascendScanData
  have : IsTotal Node (fun a b => a.angle_z_q14 ≤ b.angle_z_q14) :=
    ⟨fun a b => Nat.le_total _ _⟩
  have : IsTrans Node (fun a b => a.angle_z_q14 ≤ b.angle_z_q14) :=
    ⟨fun a b c hab hbc => Nat.le_trans hab hbc⟩
  exact List.sorted_insertionSort _ nodes

theorem printNodes_of_le (nodes : List Node) (h : nodes.length ≤ 8192) :
    printNodes (ascendScanData nodes) nodes.length = (ascendScanData nodes).flatMap printNode := by
  unfold printNodes
  rw [intOfSizeT_of_le _ h, ← ascendScanData_length nodes, List.take_length]

/-- A cycle writes each of the two markers at most once, and exactly once when the
acquisition succeeded. -/
theorem count_marker_cycleBody (r : Option (List Node)) (s : String)
    (hs : s = "S;" ∨ s = "E;") :
    (cycleBody r).count (Event.out s) = if r.isSome then 1 else 0 := by
  cases r with
  | none => simp [cycleBody]
  | some nodes =>
    have h0 := count_printNodes_eq_zero (ascendScanData nodes) nodes.length s
      (by rcases hs with h | h <;> subst h <;> decide)
    rcases hs with h | h <;> subst h <;>
      simp [cycleBody, emitRecord, List.count_cons, List.count_append, h0]

theorem count_grab_cycleBody (r : Option (List Node)) :
    (cycleBody r).count (Event.grabScanDataHq true) = if r.isSome then 1 else 0 := by
  cases r with
  | none => simp [cycleBody]
  | some nodes =>
    have h0 : (printNodes (ascendScanData nodes) nodes.length).count
        (Event.grabScanDataHq true) = 0 := by
      rw [List.count_eq_zero]
      intro hmem
      obtain ⟨s', h1, _⟩ := printNodes_out _ _ _ hmem
      cases h1
    simp [cycleBody, emitRecord, List.count_cons, List.count_append, h0]

/-! ## Lemmas on the acquisition loop -/

theorem cyclesFrom_eq (grab : Nat → Option (List Node)) (cycle n : Nat) :
    cyclesFrom grab cycle n =
      (List.range n).flatMap (fun j => cycleBody (grab (cycle + j)) ++
        [Event.readCtrlC false, Event.usleep (16 * 1000)]) ++
      (cycleBody (grab (cycle + n)) ++ [Event.readCtrlC true]) := by
  induction n generalizing cycle with
  | zero => simp [cyclesFrom]
  | succ n ih =>
    rw [cyclesFrom, ih, List.range_succ_eq_map, List.flatMap_cons, List.flatMap_map]
    simp only [Nat.add_zero, List.append_assoc, List.cons_append, List.nil_append,
      Function.comp_def]
    have h : ∀ j, cycle + 1 + j = cycle + Nat.succ j := by intro j; omega
    simp only [h]

/-- A loop that ends has run some cycles without seeing the flag, and one more in which
it saw it. -/
theorem acquisitionLoop_eq_cyclesFrom (grab : Nat → Option (List Node)) (sigint : Nat → Bool)
    (fuel cycle clock : Nat) (pressed : Bool) (tr : List Event)
    (h : acquisitionLoop grab sigint fuel cycle clock pressed = some tr) :
    ∃ n, n < fuel ∧ tr = cyclesFrom grab cycle n := by
  induction fuel generalizing cycle clock pressed tr with
  | zero => simp [acquisitionLoop] at h
  | succ fuel ih =>
    rw [acquisitionLoop] at h
    split at h
    · injection h with h
      exact ⟨0, by omega, by rw [← h]; rfl⟩
    · rw [Option.map_eq_some'] at h
      obtain ⟨rest, hrest, hr⟩ := h
      obtain ⟨n, hn, hrest'⟩ := ih _ _ _ _ hrest
      exact ⟨n + 1, by omega, by rw [← hr, hrest']; rfl⟩

theorem count_drop_le (e : Event) (k : Nat) (l : List Event) :
    (l.drop k).count e ≤ l.count e :=
  (List.drop_sublist k l).count_le e

/-- The main induction: if the flag is already set, or a `SIGINT` arrives at an instant
`t` that the fuel covers, the loop ends, and from the instant `t` on it writes each
marker at most once. -/
theorem acquisitionLoop_latency (grab : Nat → Option (List Node)) (sigint : Nat → Bool)
    (t : Nat) (s : String) (hs : s = "S;" ∨ s = "E;") (fuel cycle clock : Nat) (pressed : Bool)
    (h : (pressed = true ∧ 0 < fuel) ∨ (clock ≤ t ∧ sigint t = true ∧ t < clock + fuel)) :
    ∃ tr, acquisitionLoop grab sigint fuel cycle clock pressed = some tr ∧
      (tr.drop (t - clock)).count (Event.out s) ≤ 1 := by
  induction fuel generalizing cycle clock pressed with
  | zero => rcases h with ⟨_, h⟩ | ⟨_, _, h⟩ <;> omega
  | succ fuel ih =>
    have hB : (cycleBody (grab cycle)).count (Event.out s) ≤ 1 := by
      rw [count_marker_cycleBody _ _ hs]; split <;> omega
    rw [acquisitionLoop]
    split
    · refine ⟨_, rfl, ?_⟩
      refine le_trans (count_drop_le _ _ _) ?_
      simpa [List.count_append, List.count_cons] using hB
    · rename_i hnp
      rw [Bool.not_eq_true, deliver_eq_false_iff] at hnp
      obtain ⟨hp, hno⟩ := hnp
      rcases h with ⟨h, _⟩ | ⟨hct, hst, htf⟩
      · rw [hp] at h; cases h
      have hge : clock + (cycleBody (grab cycle)).length + 1 ≤ t := by
        by_contra hlt
        have := hno (t - clock) (by omega)
        rw [show clock + (t - clock) = t by omega, hst] at this
        cases this
      have hnext := ih (cycle + 1) (clock + (cycleBody (grab cycle)).length + 2)
        (deliver sigint (deliver sigint pressed clock ((cycleBody (grab cycle)).length + 1))
          (clock + (cycleBody (grab cycle)).length + 1) 1) (by
          by_cases heq : t = clock + (cycleBody (grab cycle)).length + 1
          · refine Or.inl ⟨?_, by omega⟩
            rw [deliver_eq_true_iff]
            exact Or.inr ⟨0, by omega, by rw [← heq] at *; simpa using hst⟩
          · exact Or.inr ⟨by omega, hst, by omega⟩)
      obtain ⟨rest, hrest, hcount⟩ := hnext
      refine ⟨_, by rw [hrest]; rfl, ?_⟩
      have hsplit : cycleBody (grab cycle) ++
            Event.readCtrlC false :: Event.usleep (16 * 1000) :: rest =
          (cycleBody (grab cycle) ++ [Event.readCtrlC false]) ++
            (Event.usleep (16 * 1000) :: rest) := by simp
      have hdrop : (cycleBody (grab cycle) ++
            Event.readCtrlC false :: Event.usleep (16 * 1000) :: rest).drop (t - clock) =
          (Event.usleep (16 * 1000) :: rest).drop
            (t - clock - ((cycleBody (grab cycle)).length + 1)) := by
        rw [hsplit, List.drop_append_eq_append_drop, List.drop_of_length_le (by simp; omega)]
        simp
      rw [hdrop]
      by_cases heq : t = clock + (cycleBody (grab cycle)).length + 1
      · have h0 : t - clock - ((cycleBody (grab cycle)).length + 1) = 0 := by omega
        have h1 : t - (clock + (cycleBody (grab cycle)).length + 2) = 0 := by omega
        rw [h0, List.drop_zero, List.count_cons]
        rw [h1, List.drop_zero] at hcount
        simpa using hcount
      · have h0 : t - clock - ((cycleBody (grab cycle)).length + 1) =
            (t - (clock + (cycleBody (grab cycle)).length + 2)) + 1 := by omega
        rw [h0, List.drop_succ_cons]
        exact hcount

/-! ## Lemmas on the printed text -/

theorem string_empty_append (s : String) : "" ++ s = s := by
  apply String.ext
  simp [String.data_append]

theorem string_append_empty (s : String) : s ++ "" = s := by
  apply String.ext
  simp [String.data_append]

theorem string_append_assoc (a b c : String) : a ++ b ++ c = a ++ (b ++ c) := by
  apply String.ext
  simp [String.data_append]

theorem stdoutText_append (a b : List Event) :
    stdoutText (a ++ b) = stdoutText a ++ stdoutText b := by
  induction a with
  | nil => simp [stdoutText, string_empty_append]
  | cons e a ih =>
    cases e <;> simp [stdoutText, ih, string_append_assoc]

theorem stdoutText_flatMap_printNode (batch : List Node) :
    stdoutText (batch.flatMap printNode) = pairsText batch := by
  induction batch with
  | nil => rfl
  | cons n ns ih =>
    rw [List.flatMap_cons, stdoutText_append, ih]
    simp [printNode, stdoutText, pairsText, string_append_assoc, string_append_empty]

/-! ## Lemmas on the printed angle -/

theorem f32Ulp_spec (fuel n : Nat) (h : n < 2 ^ 24 * 2 ^ fuel) :
    ∃ k, f32Ulp fuel n = 2 ^ k ∧ n / 2 ^ k < 2 ^ 24 ∧ (k = 0 ∨ 2 ^ 23 ≤ n / 2 ^ k) := by
  induction fuel generalizing n with
  | zero => exact ⟨0, rfl, by simpa using h, Or.inl rfl⟩
  | succ fuel ih =>
    rw [f32Ulp]
    split
    · rename_i hlt
      exact ⟨0, rfl, by simpa using hlt, Or.inl rfl⟩
    · rename_i hge
      have h2 : n / 2 < 2 ^ 24 * 2 ^ fuel := by
        rw [pow_succ] at h
        omega
      obtain ⟨k, hk, hlt, hor⟩ := ih (n / 2) h2
      have hdiv : n / 2 ^ (k + 1) = n / 2 / 2 ^ k := by
        rw [pow_succ, Nat.mul_comm, Nat.div_div_eq_div_mul]
      refine ⟨k + 1, by rw [hk, pow_succ]; ring, ?_, Or.inr ?_⟩
      · rw [hdiv]; exact hlt
      · rw [hdiv]
        rcases hor with h0 | h0
        · subst h0
          simp only [pow_zero, Nat.div_one]
          omega
        · exact h0

theorem f32Ulp_self (n : Nat) :
    ∃ k, f32Ulp n n = 2 ^ k ∧ n / 2 ^ k < 2 ^ 24 ∧ (k = 0 ∨ 2 ^ 23 ≤ n / 2 ^ k) := by
  apply f32Ulp_spec
  have h1 : n < 2 ^ n := Nat.lt_two_pow n
  have h2 : 2 ^ n * 1 ≤ 2 ^ n * 2 ^ 24 := Nat.mul_le_mul_left _ (by norm_num)
  rw [Nat.mul_comm]
  omega

/-- Rounding to a multiple of `u`: the multiplier. -/
theorem f32OfNat_eq (n u : Nat) (hu : f32Ulp n n = u) :
    f32OfNat n = (if 2 * (n % u) < u then n / u
      else if u < 2 * (n % u) then n / u + 1
      else if n / u % 2 = 0 then n / u else n / u + 1) * u := by
  unfold f32OfNat
  simp only [hu]
  split_ifs <;> rfl

theorem f32OfNat_bounds (n u : Nat) (hu : f32Ulp n n = u) :
    n / u * u ≤ f32OfNat n ∧ f32OfNat n ≤ (n / u + 1) * u := by
  rw [f32OfNat_eq n u hu]
  constructor
  · apply Nat.mul_le_mul_right
    split_ifs <;> omega
  · apply Nat.mul_le_mul_right
    split_ifs <;> omega

theorem f32OfNat_mono (a b : Nat) (h : a ≤ b) : f32OfNat a ≤ f32OfNat b := by
  obtain ⟨ka, hka, hlta, hora⟩ := f32Ulp_self a
  obtain ⟨kb, hkb, hltb, horb⟩ := f32Ulp_self b
  have hpa : 0 < 2 ^ ka := Nat.two_pow_pos _
  have hpb : 0 < 2 ^ kb := Nat.two_pow_pos _
  rcases Nat.lt_trichotomy ka kb with hk | hk | hk
  · -- the spacing grows: a power of two lies between
    have h1 := (f32OfNat_bounds a _ hka).2
    have h2 := (f32OfNat_bounds b _ hkb).1
    have h3 : 2 ^ 23 ≤ b / 2 ^ kb := by
      rcases horb with h0 | h0
      · omega
      · exact h0
    have h4 : (a / 2 ^ ka + 1) * 2 ^ ka ≤ 2 ^ 24 * 2 ^ ka := Nat.mul_le_mul_right _ hlta
    have h5 : 2 ^ 23 * 2 ^ kb ≤ b / 2 ^ kb * 2 ^ kb := Nat.mul_le_mul_right _ h3
    have h6 : 2 ^ 24 * 2 ^ ka ≤ 2 ^ 23 * 2 ^ kb := by
      have : 2 ^ (ka + 1) ≤ 2 ^ kb := Nat.pow_le_pow_right (by norm_num) hk
      calc 2 ^ 24 * 2 ^ ka = 2 ^ 23 * 2 ^ (ka + 1) := by rw [pow_succ]; ring
        _ ≤ 2 ^ 23 * 2 ^ kb := Nat.mul_le_mul_left _ this
    omega
  · subst hk
    rw [f32OfNat_eq a _ hka, f32OfNat_eq b _ hkb]
    apply Nat.mul_le_mul_right
    have h1 : a / 2 ^ ka ≤ b / 2 ^ ka := Nat.div_le_div_right h
    have h2 : a / 2 ^ ka = b / 2 ^ ka → a % 2 ^ ka ≤ b % 2 ^ ka := by
      intro heq
      have ea := Nat.div_add_mod a (2 ^ ka)
      have eb := Nat.div_add_mod b (2 ^ ka)
      rw [heq] at ea
      omega
    generalize a / 2 ^ ka = qa at *
    generalize b / 2 ^ ka = qb at *
    generalize a % 2 ^ ka = ra at *
    generalize b % 2 ^ ka = rb at *
    generalize 2 ^ ka = u at *
    split_ifs <;> omega
  · exfalso
    have h3 : 2 ^ 23 ≤ a / 2 ^ ka := by
      rcases hora with h0 | h0
      · omega
      · exact h0
    have h5 : 2 ^ 23 * 2 ^ ka ≤ a / 2 ^ ka * 2 ^ ka := Nat.mul_le_mul_right _ h3
    have h6 : a / 2 ^ ka * 2 ^ ka ≤ a := Nat.div_mul_le_self a _
    have h7 : b < (b / 2 ^ kb + 1) * 2 ^ kb := by
      have := Nat.lt_div_mul_add (a := b) hpb
      rw [Nat.add_mul, Nat.one_mul]
      exact this
    have h8 : (b / 2 ^ kb + 1) * 2 ^ kb ≤ 2 ^ 24 * 2 ^ kb := Nat.mul_le_mul_right _ hltb
    have h9 : 2 ^ 24 * 2 ^ kb ≤ 2 ^ 23 * 2 ^ ka := by
      have : 2 ^ (kb + 1) ≤ 2 ^ ka := Nat.pow_le_pow_right (by norm_num) hk
      calc 2 ^ 24 * 2 ^ kb = 2 ^ 23 * 2 ^ (kb + 1) := by rw [pow_succ]; ring
        _ ≤ 2 ^ 23 * 2 ^ ka := Nat.mul_le_mul_left _ this
    omega

theorem fixed6_14_eq (num : Nat) : fixed6 num 14 =
    if 2 * (num * 1000000 % 16384) < 16384 then num * 1000000 / 16384
    else if 16384 < 2 * (num * 1000000 % 16384) then num * 1000000 / 16384 + 1
    else if num * 1000000 / 16384 % 2 = 0 then num * 1000000 / 16384
    else num * 1000000 / 16384 + 1 := by
  rfl

theorem fixed6_14_mono (a b : Nat) (h : a ≤ b) : fixed6 a 14 ≤ fixed6 b 14 := by
  rw [fixed6_14_eq, fixed6_14_eq]
  have h1 : a * 1000000 ≤ b * 1000000 := by omega
  generalize a * 1000000 = x at *
  generalize b * 1000000 = y at *
  split_ifs <;> omega

theorem angleMicro_mono (a b : Node) (h : a.angle_z_q14 ≤ b.angle_z_q14) :
    angleMicro a ≤ angleMicro b := by
  unfold angleMicro angleNum
  exact fixed6_14_mono _ _
    (f32OfNat_mono _ _ (Nat.mul_le_mul_right 90 (f32OfNat_mono _ _ h)))

theorem count_semicolon_flatMap (batch : List Node) :
    (batch.flatMap printNode).count (Event.out ";") = 2 * batch.length := by
  induction batch with
  | nil => rfl
  | cons n ns ih =>
    have h1 : to_string (angleNum n) 14 ≠ ";" := by
      intro h
      have := to_string_length (angleNum n) 14
      rw [h] at this
      exact absurd this (by decide)
    have h2 : to_string (distNum n) 2 ≠ ";" := by
      intro h
      have := to_string_length (distNum n) 2
      rw [h] at this
      exact absurd this (by decide)
    rw [List.flatMap_cons, List.count_append, ih]
    simp [printNode, List.count_cons, h1, h2]
    omega

theorem cycleBody_some (nodes : List Node) (hN : nodes.length ≤ 8192) :
    cycleBody (some nodes) =
      Event.grabScanDataHq true :: Event.ascendScanData :: Event.out "S;" ::
        ((ascendScanData nodes).flatMap printNode ++ [Event.out "E;", Event.out "\n"]) := by
  simp [cycleBody, emitRecord, printNodes_of_le nodes hN]

/-! ## The claims on one acquisition cycle -/

/-- C1. For a successfully acquired batch of `N ≤ 8192` samples the cycle performs, after
the acquisition and the ordering step, exactly the insertions `S;`, then for every sample
of the ordered batch, in its order, the angle, `;`, the distance, `;`, then `E;` and the
line terminator.  The text on the standard output is `S;`, the pairs, `E;` and a newline;
the ordered batch holds each sample of the acquired one once, so there are `N` pairs
(`2 * N` field separators), and each of `S;` and `E;` is inserted exactly once. -/
theorem C1_one_record_per_batch (nodes : List Node) (hN : nodes.length ≤ 8192) :
    cycleBody (some nodes) =
        Event.grabScanDataHq true :: Event.ascendScanData :: Event.out "S;" ::
          ((ascendScanData nodes).flatMap printNode ++ [Event.out "E;", Event.out "\n"]) ∧
      stdoutText (cycleBody (some nodes)) =
        "S;" ++ pairsText (ascendScanData nodes) ++ "E;" ++ "\n" ∧
      (ascendScanData nodes).Perm nodes ∧
      (ascendScanData nodes).length = nodes.length ∧
      ((ascendScanData nodes).flatMap printNode).count (Event.out ";") = 2 * nodes.length ∧
      (cycleBody (some nodes)).count (Event.out "S;") = 1 ∧
      (cycleBody (some nodes)).count (Event.out "E;") = 1 := by
  have hbody := cycleBody_some nodes hN
  refine ⟨hbody, ?_, ascendScanData_perm nodes, ascendScanData_length nodes, ?_, ?_, ?_⟩
  · rw [hbody]
    simp [stdoutText, stdoutText_append, stdoutText_flatMap_printNode, string_append_assoc,
      string_append_empty]
  · rw [count_semicolon_flatMap, ascendScanData_length]
  · rw [count_marker_cycleBody _ _ (Or.inl rfl)]; rfl
  · rw [count_marker_cycleBody _ _ (Or.inr rfl)]; rfl

/-- C1, at a batch of two samples. -/
theorem C1_witness :
    stdoutText (cycleBody (some [⟨8192, 1200, 47, 0⟩, ⟨0, 800, 47, 1⟩])) =
        "S;" ++ pairsText (ascendScanData [⟨8192, 1200, 47, 0⟩, ⟨0, 800, 47, 1⟩]) ++ "E;" ++ "\n" ∧
      (cycleBody (some [⟨8192, 1200, 47, 0⟩, ⟨0, 800, 47, 1⟩])).count (Event.out "S;") = 1 :=
  ⟨(C1_one_record_per_batch [⟨8192, 1200, 47, 0⟩, ⟨0, 800, 47, 1⟩] (by decide)).2.1,
   (C1_one_record_per_batch [⟨8192, 1200, 47, 0⟩, ⟨0, 800, 47, 1⟩] (by decide)).2.2.2.2.2.1⟩

/-- C2. For the batch (16384, 400), (0, 800), (8192, 1200) the ordering step gives the
samples with angles 0, 45 and 90 degrees, and the cycle writes the record
`S;0.000000;200.000000;45.000000;300.000000;90.000000;100.000000;E;` and a newline; a
loop that acquires this batch and is interrupted in its first cycle performs exactly the
insertions of this record between the acquisition and the read of the flag. -/
theorem C2_end_to_end_record :
    ascendScanData [⟨16384, 400, 0, 0⟩, ⟨0, 800, 0, 0⟩, ⟨8192, 1200, 0, 0⟩] =
        [⟨0, 800, 0, 0⟩, ⟨8192, 1200, 0, 0⟩, ⟨16384, 400, 0, 0⟩] ∧
      stdoutText (cycleBody (some [⟨16384, 400, 0, 0⟩, ⟨0, 800, 0, 0⟩, ⟨8192, 1200, 0, 0⟩])) =
        "S;0.000000;200.000000;45.000000;300.000000;90.000000;100.000000;E;\n" ∧
      acquisitionLoop
          (fun _ => some [⟨16384, 400, 0, 0⟩, ⟨0, 800, 0, 0⟩, ⟨8192, 1200, 0, 0⟩])
          (fun t => decide (t = 0)) 1 0 0 false =
        some [Event.grabScanDataHq true, Event.ascendScanData, Event.out "S;",
          Event.out "0.000000", Event.out ";", Event.out "200.000000", Event.out ";",
          Event.out "45.000000", Event.out ";", Event.out "300.000000", Event.out ";",
          Event.out "90.000000", Event.out ";", Event.out "100.000000", Event.out ";",
          Event.out "E;", Event.out "\n", Event.readCtrlC true] := by
  decide

/-- C3. For a batch of at most 8192 samples, in whatever order, the pairs of the record
are those of a rearrangement of the batch in which the raw angles, and the angles as
printed (in millionths of a degree), never decrease.  And in every cycle, an insertion
into the standard output comes after the call of `ascendScanData`. -/
theorem C3_emitted_angles_ascending (nodes : List Node) (hN : nodes.length ≤ 8192) :
    (∃ batch : List Node, batch.Perm nodes ∧
      cycleBody (some nodes) =
        Event.grabScanDataHq true :: Event.ascendScanData :: Event.out "S;" ::
          (batch.flatMap printNode ++ [Event.out "E;", Event.out "\n"]) ∧
      (batch.map Node.angle_z_q14).Sorted (· ≤ ·) ∧
      (batch.map angleMicro).Sorted (· ≤ ·)) ∧
    (∀ (r : Option (List Node)) (pre post : List Event) (s : String),
      cycleBody r = pre ++ Event.out s :: post → Event.ascendScanData ∈ pre) := by
  constructor
  · refine ⟨ascendScanData nodes, ascendScanData_perm nodes,
      (cycleBody_some nodes hN), ?_, ?_⟩
    · rw [List.Sorted, List.pairwise_map]
      exact ascendScanData_sorted nodes
    · rw [List.Sorted, List.pairwise_map]
      exact List.Pairwise.imp (fun {a b} hab => angleMicro_mono a b hab)
        (ascendScanData_sorted nodes)
  · intro r pre post s h
    cases r with
    | none =>
      have hmem : Event.out s ∈ cycleBody none := by rw [h]; simp
      simp [cycleBody] at hmem
    | some l =>
      simp only [cycleBody, emitRecord, List.cons_append, List.nil_append] at h
      cases pre with
      | nil => simp at h
      | cons e pre =>
        cases pre with
        | nil => simp at h
        | cons e' pre =>
          simp only [List.cons_append, List.cons.injEq] at h
          rw [← h.2.1]
          simp

/-- C3, at a batch of three samples given in descending order. -/
theorem C3_witness :
    ∃ batch : List Node, batch.Perm [⟨300, 4, 0, 0⟩, ⟨200, 4, 0, 0⟩, ⟨100, 4, 0, 0⟩] ∧
      cycleBody (some [⟨300, 4, 0, 0⟩, ⟨200, 4, 0, 0⟩, ⟨100, 4, 0, 0⟩]) =
        Event.grabScanDataHq true :: Event.ascendScanData :: Event.out "S;" ::
          (batch.flatMap printNode ++ [Event.out "E;", Event.out "\n"]) ∧
      (batch.map Node.angle_z_q14).Sorted (· ≤ ·) ∧
      (batch.map angleMicro).Sorted (· ≤ ·) :=
  (C3_emitted_angles_ascending [⟨300, 4, 0, 0⟩, ⟨200, 4, 0, 0⟩, ⟨100, 4, 0, 0⟩] (by decide)).1

/-! ## Lemmas on the paths through `main` -/

theorem mem_cycleBody (r : Option (List Node)) (e : Event) (he : e ∈ cycleBody r) :
    (∃ ok, e = Event.grabScanDataHq ok) ∨ e = Event.ascendScanData ∨ ∃ s, e = Event.out s := by
  cases r with
  | none =>
    simp only [cycleBody, List.mem_singleton] at he
    exact Or.inl ⟨_, he⟩
  | some nodes =>
    simp only [cycleBody, emitRecord, List.mem_cons, List.mem_append, List.mem_singleton,
      List.not_mem_nil, or_false] at he
    rcases he with h | ((h | h) | h) | h | h
    · exact Or.inl ⟨_, h⟩
    · exact Or.inr (Or.inl h)
    · exact Or.inr (Or.inr ⟨_, h⟩)
    · obtain ⟨s, hs, _⟩ := printNodes_out _ _ _ h
      exact Or.inr (Or.inr ⟨s, hs⟩)
    · exact Or.inr (Or.inr ⟨_, h⟩)
    · exact Or.inr (Or.inr ⟨_, h⟩)

theorem inLoop_of_mem_cycleBody (r : Option (List Node)) (e : Event) (he : e ∈ cycleBody r) :
    e.inLoop = true := by
  rcases mem_cycleBody r e he with ⟨ok, h⟩ | h | ⟨s, h⟩ <;> subst h <;> rfl

theorem readCtrlC_not_mem_cycleBody (r : Option (List Node)) (v : Bool) :
    Event.readCtrlC v ∉ cycleBody r := by
  intro he
  rcases mem_cycleBody r _ he with ⟨ok, h⟩ | h | ⟨s, h⟩ <;> cases h

theorem inLoop_of_mem_cyclesFrom (grab : Nat → Option (List Node)) (cycle n : Nat) (e : Event)
    (he : e ∈ cyclesFrom grab cycle n) : e.inLoop = true := by
  induction n generalizing cycle with
  | zero =>
    simp only [cyclesFrom, List.mem_append, List.mem_singleton] at he
    rcases he with h | h
    · exact inLoop_of_mem_cycleBody _ _ h
    · subst h; rfl
  | succ n ih =>
    simp only [cyclesFrom, List.mem_append, List.mem_cons] at he
    rcases he with h | h | h | h
    · exact inLoop_of_mem_cycleBody _ _ h
    · subst h; rfl
    · subst h; rfl
    · exact ih _ h

theorem printDevInfo_out (devinfo : DevInfo) (e : Event) (he : e ∈ printDevInfo devinfo) :
    ∃ s, e = Event.out s := by
  simp only [printDevInfo, List.mem_append, List.mem_singleton, List.mem_map] at he
  rcases he with (h | ⟨pos, _, h⟩) | h
  · exact ⟨_, h⟩
  · exact ⟨_, h.symm⟩
  · exact ⟨_, h⟩

theorem main_of_args (env : Env) (fuel : Nat) (a0 : String) (rest : List String)
    (hargv : env.argv = a0 :: "--port" :: rest) (hdrv : env.createLidarDriver = true) :
    main env fuel =
      (runDriver env (optPort rest) (optBaudrate env.strtoul rest) fuel).map
        (fun r => (banner ++ r.1, r.2)) := by
  simp [main, hargv, hdrv]

theorem runDriver_connect_failed (env : Env) (p : String) (b fuel : Nat)
    (hc : env.connect = false) :
    runDriver env p b fuel = some
      ([Event.createLidarDriver true, Event.createSerialPortChannel p b, Event.connect false,
        Event.err ("Error, cannot bind to the specified serial port " ++ p ++ ".\n"),
        Event.deleteDrv], 0) := by
  simp [runDriver, connectPhase, hc, on_finished]

theorem runDriver_info_failed (env : Env) (p : String) (b fuel : Nat)
    (hc : env.connect = true) (hi : env.getDeviceInfo = none) :
    runDriver env p b fuel = some
      ([Event.createLidarDriver true, Event.createSerialPortChannel p b, Event.connect true,
        Event.getDeviceInfo false, Event.deleteDrv,
        Event.err ("Error, cannot bind to the specified serial port " ++ p ++ ".\n")], 0) := by
  simp [runDriver, connectPhase, hc, hi, on_finished]

theorem runDriver_health_failed (env : Env) (p : String) (b fuel : Nat) (devinfo : DevInfo)
    (op_result : Nat) (hc : env.connect = true) (hi : env.getDeviceInfo = some devinfo)
    (hh : env.getHealth = Except.error op_result) :
    runDriver env p b fuel = some
      ([Event.createLidarDriver true, Event.createSerialPortChannel p b, Event.connect true,
        Event.getDeviceInfo true] ++ printDevInfo devinfo ++
       [Event.getHealth false,
        Event.err ("Error, cannot retrieve the lidar health code: " ++ fmtx op_result ++ "\n"),
        Event.deleteDrv], 0) := by
  simp [runDriver, connectPhase, hc, hi, hh, on_finished, checkSLAMTECLIDARHealth]

theorem runDriver_health_error (env : Env) (p : String) (b fuel : Nat) (devinfo : DevInfo)
    (hc : env.connect = true) (hi : env.getDeviceInfo = some devinfo)
    (hh : env.getHealth = Except.ok SL_LIDAR_STATUS_ERROR) :
    runDriver env p b fuel = some
      ([Event.createLidarDriver true, Event.createSerialPortChannel p b, Event.connect true,
        Event.getDeviceInfo true] ++ printDevInfo devinfo ++
       [Event.getHealth true,
        Event.out ("SLAMTEC Lidar health status : " ++ Nat.repr SL_LIDAR_STATUS_ERROR ++ "\n"),
        Event.err "Error, slamtec lidar internal error detected. Please reboot the device to retry.\n",
        Event.deleteDrv], 0) := by
  simp [runDriver, connectPhase, hc, hi, hh, on_finished, checkSLAMTECLIDARHealth]

theorem runDriver_scanning (env : Env) (p : String) (b fuel : Nat) (devinfo : DevInfo)
    (status : Nat) (hc : env.connect = true) (hi : env.getDeviceInfo = some devinfo)
    (hh : env.getHealth = Except.ok status) (hs : status ≠ SL_LIDAR_STATUS_ERROR) :
    runDriver env p b fuel =
      (acquisitionLoop env.grabScanDataHq env.sigint fuel 0 0 false).map (fun loop =>
        ([Event.createLidarDriver true, Event.createSerialPortChannel p b, Event.connect true,
          Event.getDeviceInfo true] ++ printDevInfo devinfo ++
         [Event.getHealth true,
          Event.out ("SLAMTEC Lidar health status : " ++ Nat.repr status ++ "\n"),
          Event.signal, Event.setMotorSpeed none, Event.startScan,
          Event.out "starting scan...\n"] ++ loop ++
         [Event.out "\nbye.\n", Event.stop, Event.usleep 200000, Event.setMotorSpeed (some 0),
          Event.deleteDrv], 0)) := by
  simp [runDriver, connectPhase, hc, hi, hh, hs, on_finished, checkSLAMTECLIDARHealth,
    startScanning, afterLoop, delay]

/-- With a `SIGINT` at an instant that the fuel covers, the loop of `main` ends. -/
theorem acquisitionLoop_ends (grab : Nat → Option (List Node)) (sigint : Nat → Bool)
    (t fuel : Nat) (ht : sigint t = true) (hf : t < fuel) :
    ∃ n, acquisitionLoop grab sigint fuel 0 0 false = some (cyclesFrom grab 0 n) := by
  obtain ⟨tr, htr, _⟩ := acquisitionLoop_latency grab sigint t "S;" (Or.inl rfl) fuel 0 0 false
    (Or.inr ⟨by omega, ht, by omega⟩)
  obtain ⟨n, _, hn⟩ := acquisitionLoop_eq_cyclesFrom _ _ _ _ _ _ _ htr
  exact ⟨n, by rw [htr, hn]⟩

theorem not_mem_printDevInfo (devinfo : DevInfo) (e : Event) (h : e.isOut = false) :
    e ∉ printDevInfo devinfo := by
  intro he
  obtain ⟨s, hs⟩ := printDevInfo_out devinfo e he
  subst hs
  cases h

theorem not_mem_cyclesFrom (grab : Nat → Option (List Node)) (cycle n : Nat) (e : Event)
    (h : e.inLoop = false) : e ∉ cyclesFrom grab cycle n := by
  intro he
  rw [inLoop_of_mem_cyclesFrom grab cycle n e he] at h
  cases h

theorem count_printDevInfo (devinfo : DevInfo) (e : Event) (h : e.isOut = false) :
    (printDevInfo devinfo).count e = 0 :=
  List.count_eq_zero.mpr (not_mem_printDevInfo devinfo e h)

theorem count_cyclesFrom (grab : Nat → Option (List Node)) (cycle n : Nat) (e : Event)
    (h : e.inLoop = false) : (cyclesFrom grab cycle n).count e = 0 :=
  List.count_eq_zero.mpr (not_mem_cyclesFrom grab cycle n e h)

/-- The loop is a list of events of the cycles followed by the read that saw the flag. -/
theorem cyclesFrom_init (grab : Nat → Option (List Node)) (cycle n : Nat) :
    ∃ init, cyclesFrom grab cycle n = init ++ [Event.readCtrlC true] ∧
      ∀ e ∈ init, e.inLoop = true ∧ e ≠ Event.readCtrlC true ∧ e ≠ Event.usleep 200000 := by
  induction n generalizing cycle with
  | zero =>
    refine ⟨cycleBody (grab cycle), rfl, ?_⟩
    intro e he
    refine ⟨inLoop_of_mem_cycleBody _ _ he, ?_, ?_⟩ <;>
      · intro h
        rcases mem_cycleBody _ _ he with ⟨ok, h'⟩ | h' | ⟨s, h'⟩ <;> rw [h] at h' <;> cases h'
  | succ n ih =>
    obtain ⟨init, hinit, hall⟩ := ih (cycle + 1)
    refine ⟨cycleBody (grab cycle) ++
      Event.readCtrlC false :: Event.usleep (16 * 1000) :: init, ?_, ?_⟩
    · rw [cyclesFrom, hinit]; simp
    · intro e he
      simp only [List.mem_append, List.mem_cons] at he
      rcases he with he | he | he | he
      · refine ⟨inLoop_of_mem_cycleBody _ _ he, ?_, ?_⟩ <;>
          · intro h
            rcases mem_cycleBody _ _ he with ⟨ok, h'⟩ | h' | ⟨s, h'⟩ <;> rw [h] at h' <;>
              cases h'
      · subst he; exact ⟨rfl, by simp, by simp⟩
      · subst he; exact ⟨rfl, by simp, by simp⟩
      · exact hall e he

/-- The five ways through `main` once the arguments are accepted and a driver exists, for
a run that ends: `connect` fails, the device info read fails, the health query fails, the
health status is ERROR, or the scan runs until a `SIGINT`. -/
theorem main_paths (env : Env) (a0 : String) (rest : List String) (fuel : Nat)
    (hargv : env.argv = a0 :: "--port" :: rest) (hdrv : env.createLidarDriver = true)
    (hends : env.ends fuel = true) :
    (env.connect = false ∧ main env fuel = some
      (banner ++ [Event.createLidarDriver true,
        Event.createSerialPortChannel (optPort rest) (optBaudrate env.strtoul rest),
        Event.connect false,
        Event.err ("Error, cannot bind to the specified serial port " ++ optPort rest ++ ".\n"),
        Event.deleteDrv], 0)) ∨
    (env.connect = true ∧ env.getDeviceInfo = none ∧ main env fuel = some
      (banner ++ [Event.createLidarDriver true,
        Event.createSerialPortChannel (optPort rest) (optBaudrate env.strtoul rest),
        Event.connect true, Event.getDeviceInfo false, Event.deleteDrv,
        Event.err ("Error, cannot bind to the specified serial port " ++ optPort rest ++ ".\n")],
       0)) ∨
    (∃ devinfo op_result, env.connect = true ∧ env.getDeviceInfo = some devinfo ∧
      env.getHealth = Except.error op_result ∧ main env fuel = some
      (banner ++ ([Event.createLidarDriver true,
        Event.createSerialPortChannel (optPort rest) (optBaudrate env.strtoul rest),
        Event.connect true, Event.getDeviceInfo true] ++ printDevInfo devinfo ++
       [Event.getHealth false,
        Event.err ("Error, cannot retrieve the lidar health code: " ++ fmtx op_result ++ "\n"),
        Event.deleteDrv]), 0)) ∨
    (∃ devinfo, env.connect = true ∧ env.getDeviceInfo = some devinfo ∧
      env.getHealth = Except.ok SL_LIDAR_STATUS_ERROR ∧ main env fuel = some
      (banner ++ ([Event.createLidarDriver true,
        Event.createSerialPortChannel (optPort rest) (optBaudrate env.strtoul rest),
        Event.connect true, Event.getDeviceInfo true] ++ printDevInfo devinfo ++
       [Event.getHealth true,
        Event.out ("SLAMTEC Lidar health status : " ++ Nat.repr SL_LIDAR_STATUS_ERROR ++ "\n"),
        Event.err "Error, slamtec lidar internal error detected. Please reboot the device to retry.\n",
        Event.deleteDrv]), 0)) ∨
    (∃ devinfo status n, env.connect = true ∧ env.getDeviceInfo = some devinfo ∧
      env.getHealth = Except.ok status ∧ status ≠ SL_LIDAR_STATUS_ERROR ∧
      acquisitionLoop env.grabScanDataHq env.sigint fuel 0 0 false =
        some (cyclesFrom env.grabScanDataHq 0 n) ∧
      main env fuel = some
      (banner ++ ([Event.createLidarDriver true,
        Event.createSerialPortChannel (optPort rest) (optBaudrate env.strtoul rest),
        Event.connect true, Event.getDeviceInfo true] ++ printDevInfo devinfo ++
       [Event.getHealth true,
        Event.out ("SLAMTEC Lidar health status : " ++ Nat.repr status ++ "\n"),
        Event.signal, Event.setMotorSpeed none, Event.startScan,
        Event.out "starting scan...\n"] ++ cyclesFrom env.grabScanDataHq 0 n ++
       [Event.out "\nbye.\n", Event.stop, Event.usleep 200000, Event.setMotorSpeed (some 0),
        Event.deleteDrv]), 0)) := by
  rw [main_of_args env fuel a0 rest hargv hdrv]
  cases hc : env.connect with
  | false =>
    exact Or.inl ⟨rfl, by rw [runDriver_connect_failed env _ _ _ hc]; rfl⟩
  | true =>
    cases hi : env.getDeviceInfo with
    | none =>
      exact Or.inr (Or.inl ⟨rfl, rfl, by rw [runDriver_info_failed env _ _ _ hc hi]; rfl⟩)
    | some devinfo =>
      cases hh : env.getHealth with
      | error op_result =>
        exact Or.inr (Or.inr (Or.inl ⟨devinfo, op_result, rfl, rfl, rfl, by
          rw [runDriver_health_failed env _ _ _ devinfo op_result hc hi hh]; rfl⟩))
      | ok status =>
        by_cases hs : status = SL_LIDAR_STATUS_ERROR
        · subst hs
          exact Or.inr (Or.inr (Or.inr (Or.inl ⟨devinfo, rfl, rfl, rfl, by
            rw [runDriver_health_error env _ _ _ devinfo hc hi hh]; rfl⟩)))
        · have hsig : ∃ t, t < fuel ∧ env.sigint t = true := by
            simpa [Env.ends, Env.fatal, hc, hi, hh, hs] using hends
          obtain ⟨t, hf, ht⟩ := hsig
          obtain ⟨n, hn⟩ := acquisitionLoop_ends env.grabScanDataHq env.sigint t fuel ht hf
          exact Or.inr (Or.inr (Or.inr (Or.inr ⟨devinfo, status, n, rfl, rfl, rfl, hs, hn, by
            rw [runDriver_scanning env _ _ _ devinfo status hc hi hh hs, hn]; rfl⟩)))

/-- The count of a marker, or of the successful acquisitions, over the cycles before
the last one. -/
theorem count_cycles_init (grab : Nat → Option (List Node)) (e : Event)
    (hbody : ∀ r, (cycleBody r).count e = if r.isSome then 1 else 0)
    (h1 : e ≠ Event.readCtrlC false) (h2 : e ≠ Event.usleep (16 * 1000)) (n : Nat) :
    ((List.range n).flatMap (fun j => cycleBody (grab j) ++
      [Event.readCtrlC false, Event.usleep (16 * 1000)])).count e =
      Nat.count (fun j => (grab j).isSome = true) n := by
  induction n with
  | zero => simp
  | succ n ih =>
    rw [List.range_succ, List.flatMap_append, List.count_append, ih, Nat.count_succ]
    simp only [List.flatMap_cons, List.flatMap_nil, List.append_nil, List.count_append, hbody,
      List.count_cons, List.count_nil]
    have e1 : (Event.readCtrlC false == e) = false := by
      rw [beq_eq_false_iff_ne]; exact fun h => h1 h.symm
    have e2 : (Event.usleep (16 * 1000) == e) = false := by
      rw [beq_eq_false_iff_ne]; exact fun h => h2 h.symm
    simp [e1, e2]

theorem count_cycles (grab : Nat → Option (List Node)) (e : Event)
    (hbody : ∀ r, (cycleBody r).count e = if r.isSome then 1 else 0)
    (h1 : e ≠ Event.readCtrlC false) (h2 : e ≠ Event.usleep (16 * 1000))
    (h3 : e ≠ Event.readCtrlC true) (n : Nat) :
    (cyclesFrom grab 0 n).count e = Nat.count (fun j => (grab j).isSome = true) (n + 1) := by
  rw [cyclesFrom_eq, List.count_append]
  simp only [Nat.zero_add]
  rw [count_cycles_init grab e hbody h1 h2 n, Nat.count_succ, List.count_append, hbody]
  have e3 : (Event.readCtrlC true == e) = false := by
    rw [beq_eq_false_iff_ne]; exact fun h => h3 h.symm
  simp [List.count_cons, e3]

/-- Without a `SIGINT` the loop has no exit, whatever the acquisitions answer. -/
theorem acquisitionLoop_never_leaves (grab : Nat → Option (List Node)) (sigint : Nat → Bool)
    (hno : ∀ t, sigint t = false) (fuel cycle clock : Nat) (pressed : Bool)
    (hp : pressed = false) :
    acquisitionLoop grab sigint fuel cycle clock pressed = none := by
  induction fuel generalizing cycle clock pressed with
  | zero => rfl
  | succ fuel ih =>
    have h1 : deliver sigint pressed clock ((cycleBody (grab cycle)).length + 1) = false :=
      (deliver_eq_false_iff _ _ _ _).mpr ⟨hp, fun j _ => hno _⟩
    rw [acquisitionLoop]
    simp only [h1, Bool.false_eq_true, if_false]
    rw [ih _ _ _ ((deliver_eq_false_iff _ _ _ _).mpr ⟨rfl, fun j _ => hno _⟩)]
    rfl

/-! ## The claims on the acquisition loop -/

/-- C7. Whenever a `SIGINT` arrives at an instant `t` of the loop (before its first event
when `t = 0`), the loop ends: it is a number of cycles that each read the flag as false
after their record and then sleep, and a last cycle that reads it as true after its
record.  A cycle reads the flag nowhere else.  Among the events from the instant `t` on
there is at most one `S;` and at most one `E;`. -/
theorem C7_interrupt_latency (grab : Nat → Option (List Node)) (sigint : Nat → Bool)
    (t fuel : Nat) (ht : sigint t = true) (hf : t < fuel) :
    ∃ (tr : List Event) (n : Nat),
      acquisitionLoop grab sigint fuel 0 0 false = some tr ∧
      tr = (List.range n).flatMap (fun j => cycleBody (grab j) ++
          [Event.readCtrlC false, Event.usleep (16 * 1000)]) ++
        (cycleBody (grab n) ++ [Event.readCtrlC true]) ∧
      (∀ r v, Event.readCtrlC v ∉ cycleBody r) ∧
      (tr.drop t).count (Event.out "S;") ≤ 1 ∧
      (tr.drop t).count (Event.out "E;") ≤ 1 := by
  obtain ⟨tr, htr, hS⟩ := acquisitionLoop_latency grab sigint t "S;" (Or.inl rfl) fuel 0 0 false
    (Or.inr ⟨by omega, ht, by omega⟩)
  obtain ⟨tr', htr', hE⟩ := acquisitionLoop_latency grab sigint t "E;" (Or.inr rfl) fuel 0 0 false
    (Or.inr ⟨by omega, ht, by omega⟩)
  have heq : tr' = tr := by rw [htr] at htr'; injection htr' with h; exact h.symm
  subst heq
  obtain ⟨n, _, hn⟩ := acquisitionLoop_eq_cyclesFrom _ _ _ _ _ _ _ htr
  refine ⟨tr', n, htr, ?_, readCtrlC_not_mem_cycleBody, by simpa using hS, by simpa using hE⟩
  rw [hn, cyclesFrom_eq]
  simp only [Nat.zero_add]

/-- C7, for a `SIGINT` during the second cycle of a run whose acquisitions all succeed. -/
theorem C7_witness :
    ∃ (tr : List Event) (n : Nat),
      acquisitionLoop (fun _ => some [⟨0, 4, 0, 0⟩]) (fun t => decide (t = 12)) 20 0 0 false =
        some tr ∧
      tr = (List.range n).flatMap (fun j => cycleBody ((fun _ => some [⟨0, 4, 0, 0⟩]) j) ++
          [Event.readCtrlC false, Event.usleep (16 * 1000)]) ++
        (cycleBody ((fun _ => some [⟨0, 4, 0, 0⟩]) n) ++ [Event.readCtrlC true]) ∧
      (∀ r v, Event.readCtrlC v ∉ cycleBody r) ∧
      (tr.drop 12).count (Event.out "S;") ≤ 1 ∧
      (tr.drop 12).count (Event.out "E;") ≤ 1 :=
  C7_interrupt_latency (fun _ => some [⟨0, 4, 0, 0⟩]) (fun t => decide (t = 12)) 12 20
    (by decide) (by decide)

/-- C8. A cycle whose acquisition fails inserts nothing into the standard output.  If
the flag is read as false at the end of such a cycle, the loop goes on with the next
cycle; without a `SIGINT` the loop never leaves, whatever the acquisitions answer.  In a
loop that ends, the number of `S;`, the number of `E;` and the number of successful
calls of `grabScanDataHq` are all the number of cycles whose acquisition succeeded. -/
theorem C8_failed_acquisition_skipped (grab : Nat → Option (List Node)) (sigint : Nat → Bool)
    (t fuel : Nat) (ht : sigint t = true) (hf : t < fuel) :
    (cycleBody none = [Event.grabScanDataHq false] ∧ stdoutText (cycleBody none) = "") ∧
    (∀ (fuel' cycle clock : Nat) (pressed : Bool), grab cycle = none →
      deliver sigint pressed clock 2 = false →
      acquisitionLoop grab sigint (fuel' + 1) cycle clock pressed =
        (acquisitionLoop grab sigint fuel' (cycle + 1) (clock + 3)
          (deliver sigint false (clock + 2) 1)).map
          (fun rest => Event.grabScanDataHq false :: Event.readCtrlC false ::
            Event.usleep (16 * 1000) :: rest)) ∧
    (∀ (quiet : Nat → Bool) (fuel' cycle clock : Nat), (∀ i, quiet i = false) →
      acquisitionLoop grab quiet fuel' cycle clock false = none) ∧
    ∃ (tr : List Event) (n : Nat),
      acquisitionLoop grab sigint fuel 0 0 false = some tr ∧
      tr = (List.range n).flatMap (fun j => cycleBody (grab j) ++
          [Event.readCtrlC false, Event.usleep (16 * 1000)]) ++
        (cycleBody (grab n) ++ [Event.readCtrlC true]) ∧
      tr.count (Event.grabScanDataHq true) = Nat.count (fun j => (grab j).isSome = true) (n + 1) ∧
      tr.count (Event.out "S;") = tr.count (Event.grabScanDataHq true) ∧
      tr.count (Event.out "E;") = tr.count (Event.grabScanDataHq true) := by
  refine ⟨⟨rfl, rfl⟩, ?_, ?_, ?_⟩
  · intro fuel' cycle clock pressed hg hd
    rw [acquisitionLoop, hg]
    simp only [cycleBody, List.length_singleton, Nat.reduceAdd]
    rw [hd]
    simp
  · intro quiet fuel' cycle clock hq
    exact acquisitionLoop_never_leaves grab quiet hq fuel' cycle clock false rfl
  · obtain ⟨n, hn⟩ := acquisitionLoop_ends grab sigint t fuel ht hf
    have hG := count_cycles grab (Event.grabScanDataHq true) count_grab_cycleBody
      (by simp) (by simp) (by simp) n
    have hS := count_cycles grab (Event.out "S;")
      (fun r => count_marker_cycleBody r _ (Or.inl rfl)) (by simp) (by simp) (by simp) n
    have hE := count_cycles grab (Event.out "E;")
      (fun r => count_marker_cycleBody r _ (Or.inr rfl)) (by simp) (by simp) (by simp) n
    refine ⟨_, n, hn, ?_, hG, by rw [hS, hG], by rw [hE, hG]⟩
    rw [cyclesFrom_eq]
    simp only [Nat.zero_add]

/-- C8, for a run whose second acquisition fails and that is interrupted in its third
cycle. -/
theorem C8_witness :
    ∃ (tr : List Event) (n : Nat),
      acquisitionLoop (fun i => if i = 1 then none else some [⟨0, 4, 0, 0⟩])
        (fun t => decide (t = 15)) 20 0 0 false = some tr ∧
      tr = (List.range n).flatMap (fun j =>
          cycleBody ((fun i => if i = 1 then none else some [⟨0, 4, 0, 0⟩]) j) ++
          [Event.readCtrlC false, Event.usleep (16 * 1000)]) ++
        (cycleBody ((fun i => if i = 1 then none else some [⟨0, 4, 0, 0⟩]) n) ++
          [Event.readCtrlC true]) ∧
      tr.count (Event.grabScanDataHq true) =
        Nat.count (fun j => ((fun i => if i = 1 then none else some [⟨0, 4, 0, 0⟩]) j :
          Option (List Node)).isSome = true) (n + 1) ∧
      tr.count (Event.out "S;") = tr.count (Event.grabScanDataHq true) ∧
      tr.count (Event.out "E;") = tr.count (Event.grabScanDataHq true) :=
  (C8_failed_acquisition_skipped (fun i => if i = 1 then none else some [⟨0, 4, 0, 0⟩])
    (fun t => decide (t = 15)) 15 20 (by decide) (by decide)).2.2.2

/-! ## Lemmas on the startup text -/

theorem hexDigitUpper_ne_semicolon : ∀ d, d < 16 → hexDigitUpper d ≠ ';' := by
  decide

theorem fmt02X_ne_marker (b : Nat) (c : Char) : fmt02X b ≠ String.mk [c, ';'] := by
  intro h
  have h' := congrArg String.data h
  simp only [fmt02X, List.cons.injEq, and_true] at h'
  exact hexDigitUpper_ne_semicolon (b % 16) (Nat.mod_lt _ (by decide)) h'.2

theorem versionText_length (a b c : String) :
    ("\nFirmware Ver: " ++ a ++ "." ++ b ++ "\nHardware Rev: " ++ c ++ "\n").length ≠ 2 := by
  simp only [String.length_append]
  have h1 : "\nFirmware Ver: ".length = 15 := rfl
  omega

/-- The startup text holds no marker of a record. -/
theorem printDevInfo_no_marker (devinfo : DevInfo) (e : Event) (he : e ∈ printDevInfo devinfo) :
    e ≠ Event.out "S;" ∧ e ≠ Event.out "E;" := by
  simp only [printDevInfo, List.mem_append, List.mem_singleton, List.mem_map] at he
  rcases he with (h | ⟨pos, _, h⟩) | h
  · subst h; exact ⟨by decide, by decide⟩
  · subst h
    constructor <;>
      · intro h
        injection h with h
        exact fmt02X_ne_marker _ _ h
  · subst h
    constructor <;>
      · intro h
        injection h with h
        exact versionText_length _ _ _ (by rw [h]; rfl)

/-! ## The claims on the whole run -/

/-- C4. When the arguments are accepted, a driver exists, `connect` and the device info
read succeed and the health query reports the status ERROR, `main` returns whatever the
fuel: it ends with the health query, the line that reports the status, the diagnostic
and the release of the driver; and no event of the run is a call of `setMotorSpeed`,
`startScan`, `signal`, `grabScanDataHq` or `ascendScanData`, a read of the interrupt
flag, or the insertion of `S;` or `E;`. -/
theorem C4_health_error_never_scans (env : Env) (fuel : Nat) (a0 : String) (rest : List String)
    (devinfo : DevInfo) (hargv : env.argv = a0 :: "--port" :: rest)
    (hdrv : env.createLidarDriver = true) (hc : env.connect = true)
    (hi : env.getDeviceInfo = some devinfo)
    (hh : env.getHealth = Except.ok SL_LIDAR_STATUS_ERROR) :
    ∃ tr, main env fuel = some (tr, 0) ∧
      (∃ pre, tr = pre ++ [Event.getHealth true,
        Event.out "SLAMTEC Lidar health status : 2\n",
        Event.err "Error, slamtec lidar internal error detected. Please reboot the device to retry.\n",
        Event.deleteDrv]) ∧
      ∀ e ∈ tr, (∀ speed, e ≠ Event.setMotorSpeed speed) ∧ e ≠ Event.startScan ∧
        e ≠ Event.signal ∧ (∀ ok, e ≠ Event.grabScanDataHq ok) ∧ e ≠ Event.ascendScanData ∧
        (∀ v, e ≠ Event.readCtrlC v) ∧ e ≠ Event.out "S;" ∧ e ≠ Event.out "E;" := by
  rw [main_of_args env fuel a0 rest hargv hdrv,
    runDriver_health_error env _ _ _ devinfo hc hi hh]
  refine ⟨_, rfl, ⟨banner ++ ([Event.createLidarDriver true,
    Event.createSerialPortChannel (optPort rest) (optBaudrate env.strtoul rest),
    Event.connect true, Event.getDeviceInfo true] ++ printDevInfo devinfo), ?_⟩, ?_⟩
  · simp only [List.append_assoc]
    rfl
  · intro e he
    by_cases h : e ∈ printDevInfo devinfo
    · obtain ⟨s, hs⟩ := printDevInfo_out devinfo e h
      obtain ⟨h1, h2⟩ := printDevInfo_no_marker devinfo e h
      subst hs
      exact ⟨by simp, by simp, by simp, by simp, by simp, by simp, h1, h2⟩
    · have he' : e ∈ banner ++ [Event.createLidarDriver true,
          Event.createSerialPortChannel (optPort rest) (optBaudrate env.strtoul rest),
          Event.connect true, Event.getDeviceInfo true, Event.getHealth true,
          Event.out ("SLAMTEC Lidar health status : " ++ Nat.repr SL_LIDAR_STATUS_ERROR ++ "\n"),
          Event.err "Error, slamtec lidar internal error detected. Please reboot the device to retry.\n",
          Event.deleteDrv] := by
        simpa [h] using he
      simp only [banner, List.cons_append, List.nil_append, List.mem_cons, List.mem_singleton,
        List.not_mem_nil, or_false] at he'
      rcases he' with h | h | h | h | h | h | h | h | h <;> subst h <;>
        refine ⟨?_, ?_, ?_, ?_, ?_, ?_, ?_, ?_⟩ <;> first | decide | simp

/-- C4, at a run whose device reports the status ERROR. -/
theorem C4_witness :
    ∃ tr, main healthErrorEnv 0 = some (tr, 0) ∧
      (∃ pre, tr = pre ++ [Event.getHealth true,
        Event.out "SLAMTEC Lidar health status : 2\n",
        Event.err "Error, slamtec lidar internal error detected. Please reboot the device to retry.\n",
        Event.deleteDrv]) ∧
      ∀ e ∈ tr, (∀ speed, e ≠ Event.setMotorSpeed speed) ∧ e ≠ Event.startScan ∧
        e ≠ Event.signal ∧ (∀ ok, e ≠ Event.grabScanDataHq ok) ∧ e ≠ Event.ascendScanData ∧
        (∀ v, e ≠ Event.readCtrlC v) ∧ e ≠ Event.out "S;" ∧ e ≠ Event.out "E;" :=
  C4_health_error_never_scans healthErrorEnv 0 "print-lidar" ["/dev/ttyUSB0"] sampleDevInfo
    rfl rfl rfl rfl rfl

/-- C5. Once the arguments are accepted and a driver exists: if `connect` fails, `main`
returns whatever the fuel, its run holds no call of `getDeviceInfo`, of `getHealth` or of
`startScan`, and its last event is the release of the driver; if `connect` succeeds,
every run that ends (on a fatal error, or on a `SIGINT` that the fuel covers) holds
exactly one call of `getDeviceInfo`, and no call of `getHealth` comes before it. -/
theorem C5_device_info_read_once (env : Env) (a0 : String) (rest : List String)
    (hargv : env.argv = a0 :: "--port" :: rest) (hdrv : env.createLidarDriver = true) :
    (env.connect = false → ∀ fuel, ∃ tr, main env fuel = some (tr, 0) ∧
      (∀ ok, Event.getDeviceInfo ok ∉ tr) ∧ (∀ ok, Event.getHealth ok ∉ tr) ∧
      Event.startScan ∉ tr ∧ tr.getLast? = some Event.deleteDrv) ∧
    (env.connect = true → ∀ fuel, env.ends fuel = true →
      ∃ tr code ok pre post, main env fuel = some (tr, code) ∧
        tr = pre ++ Event.getDeviceInfo ok :: post ∧
        (∀ ok', Event.getDeviceInfo ok' ∉ pre) ∧ (∀ ok', Event.getDeviceInfo ok' ∉ post) ∧
        (∀ ok', Event.getHealth ok' ∉ pre)) := by
  constructor
  · intro hc fuel
    rw [main_of_args env fuel a0 rest hargv hdrv, runDriver_connect_failed env _ _ _ hc]
    exact ⟨_, rfl, by simp [banner], by simp [banner], by simp [banner], by simp [banner]⟩
  · intro hc fuel hends
    rcases main_paths env a0 rest fuel hargv hdrv hends with
      ⟨hc', _⟩ | ⟨_, _, hm⟩ | ⟨d, c, _, _, _, hm⟩ | ⟨d, _, _, _, hm⟩ | ⟨d, st, n, _, _, _, _, _, hm⟩
    · rw [hc] at hc'; cases hc'
    · exact ⟨_, _, false, banner ++ [Event.createLidarDriver true,
        Event.createSerialPortChannel (optPort rest) (optBaudrate env.strtoul rest),
        Event.connect true],
        [Event.deleteDrv,
          Event.err ("Error, cannot bind to the specified serial port " ++ optPort rest ++ ".\n")],
        hm, by simp, by simp [banner], by simp, by simp [banner]⟩
    · exact ⟨_, _, true, banner ++ [Event.createLidarDriver true,
        Event.createSerialPortChannel (optPort rest) (optBaudrate env.strtoul rest),
        Event.connect true],
        printDevInfo d ++ [Event.getHealth false,
          Event.err ("Error, cannot retrieve the lidar health code: " ++ fmtx c ++ "\n"),
          Event.deleteDrv],
        hm, by simp, by simp [banner],
        by simp [not_mem_printDevInfo, Event.isOut], by simp [banner]⟩
    · exact ⟨_, _, true, banner ++ [Event.createLidarDriver true,
        Event.createSerialPortChannel (optPort rest) (optBaudrate env.strtoul rest),
        Event.connect true],
        printDevInfo d ++ [Event.getHealth true,
          Event.out ("SLAMTEC Lidar health status : " ++ Nat.repr SL_LIDAR_STATUS_ERROR ++ "\n"),
          Event.err "Error, slamtec lidar internal error detected. Please reboot the device to retry.\n",
          Event.deleteDrv],
        hm, by simp, by simp [banner],
        by simp [not_mem_printDevInfo, Event.isOut], by simp [banner]⟩
    · exact ⟨_, _, true, banner ++ [Event.createLidarDriver true,
        Event.createSerialPortChannel (optPort rest) (optBaudrate env.strtoul rest),
        Event.connect true],
        printDevInfo d ++ [Event.getHealth true,
          Event.out ("SLAMTEC Lidar health status : " ++ Nat.repr st ++ "\n"),
          Event.signal, Event.setMotorSpeed none, Event.startScan,
          Event.out "starting scan...\n"] ++ cyclesFrom env.grabScanDataHq 0 n ++
          [Event.out "\nbye.\n", Event.stop, Event.usleep 200000, Event.setMotorSpeed (some 0),
           Event.deleteDrv],
        hm, by simp, by simp [banner],
        by simp [not_mem_printDevInfo, not_mem_cyclesFrom, Event.isOut, Event.inLoop],
        by simp [banner]⟩

/-- C5, at a run in which `connect` fails and at a run that scans. -/
theorem C5_witness :
    (∃ tr, main connectFailedEnv 0 = some (tr, 0) ∧
      (∀ ok, Event.getDeviceInfo ok ∉ tr) ∧ (∀ ok, Event.getHealth ok ∉ tr) ∧
      Event.startScan ∉ tr ∧ tr.getLast? = some Event.deleteDrv) ∧
    (∃ tr code ok pre post, main scanEnv 25 = some (tr, code) ∧
      tr = pre ++ Event.getDeviceInfo ok :: post ∧
      (∀ ok', Event.getDeviceInfo ok' ∉ pre) ∧ (∀ ok', Event.getDeviceInfo ok' ∉ post) ∧
      (∀ ok', Event.getHealth ok' ∉ pre)) :=
  ⟨(C5_device_info_read_once connectFailedEnv "print-lidar" ["/dev/ttyUSB0"] rfl rfl).1 rfl 0,
   (C5_device_info_read_once scanEnv "print-lidar" ["/dev/ttyUSB0", "256000"] rfl rfl).2 rfl
     25 (by decide)⟩

/-- C6. The code at the failing input: in the run `connectFailedEnv` the arguments are
accepted, a driver exists and `connect` fails; `main` writes the bind diagnostic to the
error stream, releases the driver and returns the exit code 0, where the claim has a
non-zero code.  The other fatal errors of `main` do return a negative code: -1 without
the `--port` option, -2 without a driver. -/
theorem C6_failed_connect_returns_zero :
    connectFailedEnv.connect = false ∧
      main connectFailedEnv 0 = some
        ([Event.out "LIDAR data printer for SLAMTEC LIDAR.\nVersion: SL_LIDAR_SDK_VERSION\n",
          Event.createLidarDriver true, Event.createSerialPortChannel "/dev/ttyUSB0" 115200,
          Event.connect false,
          Event.err "Error, cannot bind to the specified serial port /dev/ttyUSB0.\n",
          Event.deleteDrv], 0) ∧
      main usageEnv 0 = some
        ([Event.out "LIDAR data printer for SLAMTEC LIDAR.\nVersion: SL_LIDAR_SDK_VERSION\n",
          Event.print_usage], -1) ∧
      main noDriverEnv 0 = some
        ([Event.out "LIDAR data printer for SLAMTEC LIDAR.\nVersion: SL_LIDAR_SDK_VERSION\n",
          Event.createLidarDriver false, Event.err "insufficent memory, exit\n"], -2) := by
  decide

/-- The extent of the exit code 0: once the arguments are accepted and a driver exists,
a run with a fatal device-lifecycle error returns whatever the fuel and holds a
diagnostic on the error stream; and every return of `main`, on these runs as on the
interrupted scan, carries the code of the single `return 0` after `on_finished`. -/
theorem exit_code_after_driver (env : Env) (a0 : String) (rest : List String)
    (hargv : env.argv = a0 :: "--port" :: rest) (hdrv : env.createLidarDriver = true) :
    (env.fatal = true →
      ∀ fuel, ∃ tr, main env fuel = some (tr, 0) ∧ ∃ s, Event.err s ∈ tr) ∧
    (∀ fuel, env.ends fuel = true → ∃ tr, main env fuel = some (tr, 0)) ∧
    (∀ fuel tr code, main env fuel = some (tr, code) → code = 0) := by
  refine ⟨?_, ?_, ?_⟩
  · intro hfatal fuel
    rw [main_of_args env fuel a0 rest hargv hdrv]
    cases hc : env.connect with
    | false =>
      rw [runDriver_connect_failed env _ _ _ hc]
      exact ⟨_, rfl,
            "Error, cannot bind to the specified serial port " ++ optPort rest ++ ".\n", by simp⟩
    | true =>
      cases hi : env.getDeviceInfo with
      | none =>
        rw [runDriver_info_failed env _ _ _ hc hi]
        exact ⟨_, rfl,
            "Error, cannot bind to the specified serial port " ++ optPort rest ++ ".\n", by simp⟩
      | some devinfo =>
        cases hh : env.getHealth with
        | error op_result =>
          rw [runDriver_health_failed env _ _ _ devinfo op_result hc hi hh]
          exact ⟨_, rfl,
            "Error, cannot retrieve the lidar health code: " ++ fmtx op_result ++ "\n", by simp⟩
        | ok status =>
          have hs : status = SL_LIDAR_STATUS_ERROR := by
            simpa [Env.fatal, hc, hi, hh] using hfatal
          subst hs
          rw [runDriver_health_error env _ _ _ devinfo hc hi hh]
          exact ⟨_, rfl,
            "Error, slamtec lidar internal error detected. Please reboot the device to retry.\n", by simp⟩
  · intro fuel hends
    rcases main_paths env a0 rest fuel hargv hdrv hends with
      ⟨_, hm⟩ | ⟨_, _, hm⟩ | ⟨d, c, _, _, _, hm⟩ | ⟨d, _, _, _, hm⟩ | ⟨d, st, n, _, _, _, _, _, hm⟩ <;>
      exact ⟨_, hm⟩
  · intro fuel tr code h
    rw [main_of_args env fuel a0 rest hargv hdrv, Option.map_eq_some'] at h
    obtain ⟨r, hr, hrc⟩ := h
    have hcode : r.2 = 0 := by
      cases hc : env.connect with
      | false =>
        rw [runDriver_connect_failed env _ _ _ hc] at hr
        injection hr with hr; rw [← hr]
      | true =>
        cases hi : env.getDeviceInfo with
        | none =>
          rw [runDriver_info_failed env _ _ _ hc hi] at hr
          injection hr with hr; rw [← hr]
        | some devinfo =>
          cases hh : env.getHealth with
          | error op_result =>
            rw [runDriver_health_failed env _ _ _ devinfo op_result hc hi hh] at hr
            injection hr with hr; rw [← hr]
          | ok status =>
            by_cases hs : status = SL_LIDAR_STATUS_ERROR
            · subst hs
              rw [runDriver_health_error env _ _ _ devinfo hc hi hh] at hr
              injection hr with hr; rw [← hr]
            · rw [runDriver_scanning env _ _ _ devinfo status hc hi hh hs,
                Option.map_eq_some'] at hr
              obtain ⟨loop, _, hl⟩ := hr
              rw [← hl]
    injection hrc with _ h2
    rw [← h2, hcode]

/-- C9. When the scan runs (the arguments are accepted, a driver exists, `connect`, the
device info read and the health query succeed with a status other than ERROR) and a
`SIGINT` arrives at an instant that the fuel covers, `main` returns 0 and its run ends
with: the read that sees the flag, the line `bye.`, `stop()`, a sleep of 200 ms,
`setMotorSpeed(0)`, and the release of the driver.  None of these events, the line
apart, occurs before. -/
theorem C9_teardown_order (env : Env) (a0 : String) (rest : List String) (devinfo : DevInfo)
    (status t fuel : Nat) (hargv : env.argv = a0 :: "--port" :: rest)
    (hdrv : env.createLidarDriver = true) (hc : env.connect = true)
    (hi : env.getDeviceInfo = some devinfo) (hh : env.getHealth = Except.ok status)
    (hs : status ≠ SL_LIDAR_STATUS_ERROR) (ht : env.sigint t = true) (hf : t < fuel) :
    ∃ pre, main env fuel = some
        (pre ++ [Event.readCtrlC true, Event.out "\nbye.\n", Event.stop, Event.usleep 200000,
          Event.setMotorSpeed (some 0), Event.deleteDrv], 0) ∧
      Event.readCtrlC true ∉ pre ∧ Event.stop ∉ pre ∧ Event.usleep 200000 ∉ pre ∧
      Event.setMotorSpeed (some 0) ∉ pre ∧ Event.deleteDrv ∉ pre := by
  obtain ⟨n, hn⟩ := acquisitionLoop_ends env.grabScanDataHq env.sigint t fuel ht hf
  obtain ⟨init, hinit, hall⟩ := cyclesFrom_init env.grabScanDataHq 0 n
  have hnot : ∀ e, e.inLoop = false ∨ e = Event.readCtrlC true ∨ e = Event.usleep 200000 →
      e ∉ init := by
    intro e he hmem
    obtain ⟨h1, h2, h3⟩ := hall e hmem
    rcases he with h | h | h
    · rw [h1] at h; cases h
    · exact h2 h
    · exact h3 h
  refine ⟨banner ++ ([Event.createLidarDriver true,
      Event.createSerialPortChannel (optPort rest) (optBaudrate env.strtoul rest),
      Event.connect true, Event.getDeviceInfo true] ++ printDevInfo devinfo ++
      [Event.getHealth true,
        Event.out ("SLAMTEC Lidar health status : " ++ Nat.repr status ++ "\n"),
        Event.signal, Event.setMotorSpeed none, Event.startScan,
        Event.out "starting scan...\n"] ++ init), ?_, ?_, ?_, ?_, ?_, ?_⟩
  · rw [main_of_args env fuel a0 rest hargv hdrv,
      runDriver_scanning env _ _ _ devinfo status hc hi hh hs, hn, hinit]
    simp
  · simp [banner, not_mem_printDevInfo, Event.isOut, hnot]
  · simp [banner, not_mem_printDevInfo, Event.isOut, hnot, Event.inLoop]
  · simp [banner, not_mem_printDevInfo, Event.isOut, hnot]
  · simp [banner, not_mem_printDevInfo, Event.isOut, hnot, Event.inLoop]
  · simp [banner, not_mem_printDevInfo, Event.isOut, hnot, Event.inLoop]

/-- C9, at a run that scans three cycles. -/
theorem C9_witness :
    ∃ pre, main scanEnv 25 = some
        (pre ++ [Event.readCtrlC true, Event.out "\nbye.\n", Event.stop, Event.usleep 200000,
          Event.setMotorSpeed (some 0), Event.deleteDrv], 0) ∧
      Event.readCtrlC true ∉ pre ∧ Event.stop ∉ pre ∧ Event.usleep 200000 ∉ pre ∧
      Event.setMotorSpeed (some 0) ∉ pre ∧ Event.deleteDrv ∉ pre :=
  C9_teardown_order scanEnv "print-lidar" ["/dev/ttyUSB0", "256000"] sampleDevInfo 0 20 25
    rfl rfl rfl rfl rfl (by decide) (by decide) (by decide)

/-- C10. Once the arguments are accepted and a driver exists, every run that ends (on a
fatal error, or on a `SIGINT` that the fuel covers) releases the driver exactly once:
the run is some events without a release, the release, and some events none of which is
a driver operation. -/
theorem C10_driver_released_once (env : Env) (a0 : String) (rest : List String) (fuel : Nat)
    (hargv : env.argv = a0 :: "--port" :: rest) (hdrv : env.createLidarDriver = true)
    (hends : env.ends fuel = true) :
    ∃ tr code pre post, main env fuel = some (tr, code) ∧
      tr = pre ++ Event.deleteDrv :: post ∧ Event.deleteDrv ∉ pre ∧
      (∀ e ∈ post, e.isDriverOp = false) ∧ tr.count Event.deleteDrv = 1 := by
  rcases main_paths env a0 rest fuel hargv hdrv hends with
    ⟨_, hm⟩ | ⟨_, _, hm⟩ | ⟨d, c, _, _, _, hm⟩ | ⟨d, _, _, _, hm⟩ | ⟨d, st, n, _, _, _, _, _, hm⟩
  · exact ⟨_, _, banner ++ [Event.createLidarDriver true,
      Event.createSerialPortChannel (optPort rest) (optBaudrate env.strtoul rest),
      Event.connect false,
      Event.err ("Error, cannot bind to the specified serial port " ++ optPort rest ++ ".\n")],
      [], hm, by simp, by simp [banner], by simp,
      by simp [banner, List.count_cons, List.count_append]⟩
  · exact ⟨_, _, banner ++ [Event.createLidarDriver true,
      Event.createSerialPortChannel (optPort rest) (optBaudrate env.strtoul rest),
      Event.connect true, Event.getDeviceInfo false],
      [Event.err ("Error, cannot bind to the specified serial port " ++ optPort rest ++ ".\n")],
      hm, by simp, by simp [banner], by simp [Event.isDriverOp],
      by simp [banner, List.count_cons, List.count_append]⟩
  · exact ⟨_, _, banner ++ ([Event.createLidarDriver true,
      Event.createSerialPortChannel (optPort rest) (optBaudrate env.strtoul rest),
      Event.connect true, Event.getDeviceInfo true] ++ printDevInfo d ++
      [Event.getHealth false,
        Event.err ("Error, cannot retrieve the lidar health code: " ++ fmtx c ++ "\n")]),
      [], hm, by simp, by simp [banner, not_mem_printDevInfo, Event.isOut], by simp,
      by simp [banner, List.count_cons, List.count_append, count_printDevInfo, Event.isOut]⟩
  · exact ⟨_, _, banner ++ ([Event.createLidarDriver true,
      Event.createSerialPortChannel (optPort rest) (optBaudrate env.strtoul rest),
      Event.connect true, Event.getDeviceInfo true] ++ printDevInfo d ++
      [Event.getHealth true,
        Event.out ("SLAMTEC Lidar health status : " ++ Nat.repr SL_LIDAR_STATUS_ERROR ++ "\n"),
        Event.err "Error, slamtec lidar internal error detected. Please reboot the device to retry.\n"]),
      [], hm, by simp, by simp [banner, not_mem_printDevInfo, Event.isOut], by simp,
      by simp [banner, List.count_cons, List.count_append, count_printDevInfo, Event.isOut]⟩
  · exact ⟨_, _, banner ++ ([Event.createLidarDriver true,
      Event.createSerialPortChannel (optPort rest) (optBaudrate env.strtoul rest),
      Event.connect true, Event.getDeviceInfo true] ++ printDevInfo d ++
      [Event.getHealth true,
        Event.out ("SLAMTEC Lidar health status : " ++ Nat.repr st ++ "\n"),
        Event.signal, Event.setMotorSpeed none, Event.startScan,
        Event.out "starting scan...\n"] ++ cyclesFrom env.grabScanDataHq 0 n ++
      [Event.out "\nbye.\n", Event.stop, Event.usleep 200000, Event.setMotorSpeed (some 0)]),
      [], hm, by simp,
      by simp [banner, not_mem_printDevInfo, not_mem_cyclesFrom, Event.isOut, Event.inLoop],
      by simp,
      by simp [banner, List.count_cons, List.count_append, count_printDevInfo,
        count_cyclesFrom, Event.isOut, Event.inLoop]⟩

/-- C10, at a run that scans three cycles. -/
theorem C10_witness :
    ∃ tr code pre post, main scanEnv 25 = some (tr, code) ∧
      tr = pre ++ Event.deleteDrv :: post ∧ Event.deleteDrv ∉ pre ∧
      (∀ e ∈ post, e.isDriverOp = false) ∧ tr.count Event.deleteDrv = 1 :=
  C10_driver_released_once scanEnv "print-lidar" ["/dev/ttyUSB0", "256000"] 25 rfl rfl
    (by decide)

end PrintLidar
